import Mathlib

/-!
Verification of the severity-tracked logging subsystem of the OPERA PGE
repository (`opera/util/logger.py`, consumed by `opera/pge/base_pge.py`),
as a shallow embedding in Lean 4.

The logger module itself ships only its unit tests in this tree, so the
`PgeLogger` operations below are modelled from the specification text
(each such definition says so in its doc comment).  `base_pge.py` is
present in the tree and its relevant functions are embedded directly.

Modelling conventions: the text sink is a list of lines; wall-clock
timestamps are explicit `String` parameters (captured at write time in
the original); Python exceptions become an `Option PgeError` component
threaded next to the state, so that the state reached before an
exception propagates stays observable.
-/

/-- Modelled from the spec: severity classification (§4.1 of spec.md).
Given a non-negative integer error code, return one of the four
severities by range; classification takes only the code, so it is
independent of any configured `error_code_base`.  Codes above 3999 are
outside the documented contract. -/
def get_severity_from_error_code (code : Nat) : String :=
  if code ≤ 999 then "Info"
  else if code ≤ 1999 then "Debug"
  else if code ≤ 2999 then "Warning"
  else "Critical"

/-- Modelled from the spec: case normalization of a severity name
(§4.1): capitalize the first character, lowercase the rest, exactly as
Python str.capitalize does for ASCII input. -/
def standardize_severity_string (s : String) : String :=
  match s.data with
  | [] => ""
  | c :: cs => String.mk (c.toUpper :: cs.map Char.toLower)

/-- The four recognized severity names, in canonical capitalization. -/
abbrev recognizedSeverity (s : String) : Prop :=
  standardize_severity_string s = "Debug" ∨ standardize_severity_string s = "Info" ∨
    standardize_severity_string s = "Warning" ∨ standardize_severity_string s = "Critical"

/-- Modelled from the spec: an enumerated error code (the
`opera.util.error_codes.ErrorCode` enum): a numeric value paired with
its symbolic name. -/
structure ErrorCode where
  code : Nat
  name : String
deriving DecidableEq

/-- One serialized log line per §3 of spec.md:
timestamp, severity, workflow, module, symbolic code, location, quoted
description, comma separated. -/
def formatLine (time severity workflow module codeName location description : String) : String :=
  time ++ ", " ++ severity ++ ", " ++ workflow ++ ", " ++ module ++
    ", ErrorCode." ++ codeName ++ ", " ++ location ++ ", \"" ++ description ++ "\""

/-- Modelled from the spec: the module-level low-level write primitive
(§4.2): append exactly one formatted line to the destination stream,
rendering the error code by its symbolic name.  The timestamp, captured
at write time in the original, is an explicit parameter here.  The
stream is the list of lines written so far. -/
def write (stream : List String) (time severity workflow module : String)
    (error_code : ErrorCode) (location description : String) : List String :=
  stream ++ [formatLine time severity workflow module error_code.name location description]

/-- Modelled from the spec: symbolic-name rendering of the numeric codes
the embedded scenarios use (names taken from the unit tests in
`src/opera/test/pge/test_logger.py` and from `base_pge.py`). -/
def errorCodeName (n : Nat) : String :=
  if n = 0 then "OVERALL_SUCCESS"
  else if n = 1 then "LOG_FILE_CREATED"
  else if n = 2 then "LOADING_RUN_CONFIG_FILE"
  else if n = 3 then "VALIDATING_RUN_CONFIG_FILE"
  else if n = 4 then "RUN_CONFIG_VALIDATION_FAILED"
  else "CODE_" ++ toString n

/-- Running per-severity counters of the logger. -/
structure SeverityCounts where
  debug : Nat
  info : Nat
  warning : Nat
  critical : Nat
deriving DecidableEq

/-- Increment the counter matching an (already standardized) severity
name; unrecognized names leave the counters unchanged. -/
def SeverityCounts.incrementFor (sc : SeverityCounts) (std : String) : SeverityCounts :=
  if std = "Debug" then { sc with debug := sc.debug + 1 }
  else if std = "Info" then { sc with info := sc.info + 1 }
  else if std = "Warning" then { sc with warning := sc.warning + 1 }
  else if std = "Critical" then { sc with critical := sc.critical + 1 }
  else sc

/-- The single active destination of the logger: an in-memory buffer
before the file location is known, a path-named file afterwards (§3 of
spec.md).  Content is the list of lines held by the sink. -/
inductive Sink where
  | buffer (lines : List String)
  | file (path : String) (lines : List String)
deriving DecidableEq

/-- The lines currently held by the sink. -/
def Sink.content : Sink → List String
  | Sink.buffer c => c
  | Sink.file _ c => c

/-- The on-disk path of the sink, if it is file-backed. -/
def Sink.path : Sink → Option String
  | Sink.buffer _ => none
  | Sink.file p _ => some p

/-- Append one line to the sink, preserving its kind and path. -/
def Sink.appendLine (s : Sink) (line : String) : Sink :=
  match s with
  | Sink.buffer c => Sink.buffer (c ++ [line])
  | Sink.file p c => Sink.file p (c ++ [line])

/-- Append several lines to the sink, preserving its kind and path. -/
def Sink.appendLines (s : Sink) (ls : List String) : Sink :=
  match s with
  | Sink.buffer c => Sink.buffer (c ++ ls)
  | Sink.file p c => Sink.file p (c ++ ls)

/-- Failure signals of the embedded code: a fatal I/O failure of the
sink, or the RuntimeError raised by a critical event / failed
validation. -/
inductive PgeError where
  | ioError (msg : String)
  | runtimeError (msg : String)
deriving DecidableEq

/-- Modelled from the spec: the state of a `PgeLogger` (§3 of spec.md).
`writable` models whether I/O on the current sink succeeds; the start
time and default-filename generation are immaterial to the claims and
omitted. -/
structure PgeLogger where
  workflow : String
  error_code_base : Nat
  log_filename : String
  log_count_by_severity : SeverityCounts
  sink : Sink
  writable : Bool
deriving DecidableEq

/-- Write one raw line to the logger sink; fails (fatal I/O error,
no fallback, per §4.2 / §7 of spec.md) when the sink is unwritable. -/
def PgeLogger.sinkWrite (lg : PgeLogger) (line : String) : PgeLogger × Option PgeError :=
  if lg.writable then ({ lg with sink := lg.sink.appendLine line }, none)
  else (lg, some (PgeError.ioError "log sink is not writable"))

/-- The Warning line recorded when a counter increment is requested for
an unrecognized severity name (§4.4 of spec.md; message text after the
unit tests). -/
def couldNotIncrementLine (lg : PgeLogger) (std time : String) : String :=
  formatLine time "Warning" lg.workflow "PgeLogger" (errorCodeName lg.error_code_base)
    "logger.py" ("Could not increment severity level: " ++ std)

/-- The Warning line recorded when a count is requested for an
unrecognized severity name (§4.4 of spec.md; message text after the
unit tests). -/
def noMessagesLine (lg : PgeLogger) (std time : String) : String :=
  formatLine time "Warning" lg.workflow "PgeLogger" (errorCodeName lg.error_code_base)
    "logger.py" ("No messages logged with severity: " ++ std)

/-- Modelled from the spec: `increment_log_count_by_severity` (§4.4):
normalize the name and increment the matching counter; an unrecognized
name does not raise, leaves all four counters unchanged, and records a
Warning entry noting the unrecognized severity. -/
def PgeLogger.increment_log_count_by_severity (lg : PgeLogger) (severity time : String) :
    PgeLogger × Option PgeError :=
  let std := standardize_severity_string severity
  if std = "Debug" ∨ std = "Info" ∨ std = "Warning" ∨ std = "Critical" then
    ({ lg with log_count_by_severity := lg.log_count_by_severity.incrementFor std }, none)
  else
    lg.sinkWrite (couldNotIncrementLine lg std time)

/-- Modelled from the spec: `get_log_count_by_severity` (§4.4):
read-only for recognized names; an unrecognized name yields no count and
records a Warning entry.  Result: (state, exception, count). -/
def PgeLogger.get_log_count_by_severity (lg : PgeLogger) (severity time : String) :
    PgeLogger × Option PgeError × Option Nat :=
  let std := standardize_severity_string severity
  if std = "Debug" then (lg, none, some lg.log_count_by_severity.debug)
  else if std = "Info" then (lg, none, some lg.log_count_by_severity.info)
  else if std = "Warning" then (lg, none, some lg.log_count_by_severity.warning)
  else if std = "Critical" then (lg, none, some lg.log_count_by_severity.critical)
  else
    let r := lg.sinkWrite (noMessagesLine lg std time)
    (r.1, r.2, none)

/-- The formatted entry produced by the logger entry points for given
workflow, error-code base and call arguments (the entry points record
their own location; it is a fixed string in this model). -/
def entryLine (workflow : String) (base : Nat) (time severity module : String)
    (code : Nat) (description : String) : String :=
  formatLine time severity workflow module (errorCodeName (base + code)) "logger.py" description

/-- Modelled from the spec: the formatted-write entry point of the
logger (§4.3): standardize the severity, format one line using the
configured workflow and error-code base, append it to the current sink,
then increment the matching severity counter. -/
def PgeLogger.write (lg : PgeLogger) (severity module : String) (code : Nat)
    (description time : String) : PgeLogger × Option PgeError :=
  let std := standardize_severity_string severity
  match lg.sinkWrite (entryLine lg.workflow lg.error_code_base time std module code description) with
  | (lg1, some e) => (lg1, some e)
  | (lg1, none) => lg1.increment_log_count_by_severity severity time

/-- Modelled from the spec: the `info` entry point (§4.3). -/
def PgeLogger.info (lg : PgeLogger) (module : String) (code : Nat)
    (description time : String) : PgeLogger × Option PgeError :=
  lg.write "Info" module code description time

/-- Modelled from the spec: the `debug` entry point (§4.3). -/
def PgeLogger.debug (lg : PgeLogger) (module : String) (code : Nat)
    (description time : String) : PgeLogger × Option PgeError :=
  lg.write "Debug" module code description time

/-- Modelled from the spec: the `warning` entry point (§4.3). -/
def PgeLogger.warning (lg : PgeLogger) (module : String) (code : Nat)
    (description time : String) : PgeLogger × Option PgeError :=
  lg.write "Warning" module code description time

/-- Modelled from the spec: the `critical` entry point (§4.3): after the
entry is recorded in the sink and the counter incremented, raise a fatal
RuntimeError carrying the description — record first, raise after. -/
def PgeLogger.critical (lg : PgeLogger) (module : String) (code : Nat)
    (description time : String) : PgeLogger × Option PgeError :=
  match lg.write "Critical" module code description time with
  | (lg1, some e) => (lg1, some e)
  | (lg1, none) => (lg1, some (PgeError.runtimeError description))

/-- Modelled from the spec: `move(new_path)` (§4.5): relocate the live
sink to the new path preserving all accumulated content; if the sink is
still buffer-backed, flush the buffered content to the new path,
completing the buffer-to-file transition; the recorded filename becomes
the new path. -/
def PgeLogger.move (lg : PgeLogger) (newPath : String) : PgeLogger :=
  match lg.sink with
  | Sink.buffer c => { lg with sink := Sink.file newPath c, log_filename := newPath }
  | Sink.file _ c => { lg with sink := Sink.file newPath c, log_filename := newPath }

/-- Modelled from the spec: `append(external_path)` (§4.5): append the
external file content (its lines, passed here directly) verbatim to the
current sink, bypassing the formatted-write primitive and the severity
counters. -/
def PgeLogger.append (lg : PgeLogger) (externalLines : List String) :
    PgeLogger × Option PgeError :=
  if lg.writable then ({ lg with sink := lg.sink.appendLines externalLines }, none)
  else (lg, some (PgeError.ioError "log sink is not writable"))

/-- Boolean test that `target` starts with `pat`, on character lists. -/
def charListStartsWith : List Char → List Char → Bool
  | [], _ => true
  | _ :: _, [] => false
  | a :: as, b :: bs => a = b && charListStartsWith as bs

/-- Boolean substring occurrence test on character lists, mirroring the
Python `in` operator on strings. -/
def charListContains (pat : List Char) : List Char → Bool
  | [] => charListStartsWith pat []
  | c :: cs => charListStartsWith pat (c :: cs) || charListContains pat cs

/-- Whether the severity token occurs in the line. -/
def containsToken (line token : String) : Bool :=
  charListContains token.data line.data

/-- Number of lines in which the severity token occurs. -/
def countSeverity (lines : List String) (token : String) : Nat :=
  (lines.filter (fun l => containsToken l token)).length

/-- The true per-line tally of each severity token over a sink content. -/
def tallyBySeverity (lines : List String) : SeverityCounts :=
  { debug := countSeverity lines "Debug", info := countSeverity lines "Info",
    warning := countSeverity lines "Warning", critical := countSeverity lines "Critical" }

/-- Modelled from the spec: `resync_log_count_by_severity` (§4.4): fully
recompute all four counters by scanning the authoritative sink content,
tallying occurrences of each severity token per line, and replace the
in-memory counters with the recomputed values. -/
def PgeLogger.resync_log_count_by_severity (lg : PgeLogger) : PgeLogger :=
  { lg with log_count_by_severity := tallyBySeverity lg.sink.content }

/-- Arguments of one formatted write, for reasoning about sequences of
writes. -/
structure EntryArgs where
  time : String
  severity : String
  module : String
  code : Nat
  description : String
deriving DecidableEq

/-- Issue a sequence of formatted writes, stopping at the first
exception (as a Python loop of write calls would). -/
def PgeLogger.writeSeq (lg : PgeLogger) : List EntryArgs → PgeLogger × Option PgeError
  | [] => (lg, none)
  | e :: rest =>
    match lg.write e.severity e.module e.code e.description e.time with
    | (lg1, some err) => (lg1, some err)
    | (lg1, none) => lg1.writeSeq rest

/-- The line a formatted write with the given arguments produces under
the given workflow and error-code base. -/
def entryLineOf (workflow : String) (base : Nat) (e : EntryArgs) : String :=
  entryLine workflow base e.time (standardize_severity_string e.severity) e.module e.code
    e.description

/-- One step of `PgeExecutor.run_sas_executable` / `_validate_runconfig`
(`src/opera/pge/base_pge.py`), abstracting each statement of the source
into the externally observable action it performs. -/
inductive PgeStep where
  | logDebugStep (module description : String)
  | logInfoStep (module description : String)
  | logCriticalStep (module description : String)
  | flushStep
  | subprocessStartStep (commandLine : List String)
  | logMetricStep (module metricName : String)
deriving DecidableEq

/-- Embeds `PgeExecutor._isolate_sas_runconfig` (base_pge.py lines
237-263) as its step trace: writing the isolated SAS config may fail
with OSError (`scratchWriteOk = false`), in which case `logger.critical`
runs and — since `critical` raises — the method aborts (second component
`false`); otherwise the info entry is recorded and the method returns
normally. -/
def isolate_sas_runconfig_steps (scratchWriteOk : Bool) (sasRunconfigFilepath : String) :
    List PgeStep × Bool :=
  if scratchWriteOk then
    ([PgeStep.logInfoStep "PgeExecutor"
        ("SAS RunConfig created at " ++ sasRunconfigFilepath)], true)
  else
    ([PgeStep.logCriticalStep "PgeExecutor"
        ("Failed to create SAS config file " ++ sasRunconfigFilepath)], false)

/-- Inputs determining the behavior of `run_sas_executable`: the
configured SAS program path (with whether it exists on disk), the
already-split program options, the isolated runconfig path, and whether
writing that isolated config succeeds. -/
structure SasConfig where
  sas_program_path : String
  sas_program_path_exists : Bool
  sas_program_options : List String
  sas_runconfig_filepath : String
  scratchWriteOk : Bool
deriving DecidableEq

/-- The subprocess command line assembled by `run_sas_executable`
(base_pge.py lines 282-292). -/
def sasCommandLine (cfg : SasConfig) : List String :=
  (if cfg.sas_program_path_exists then ["python3", "-m", cfg.sas_program_path]
   else ["python3", "-q", "/Users/jehofman/Documents/opera_pge/src/opera/test/pge/data/hello.py"])
    ++ cfg.sas_program_options ++ ["--", cfg.sas_runconfig_filepath]

/-- Concatenate command-line words with single spaces, as
`" ".join(command_line)` does. -/
def joinWords : List String → String
  | [] => ""
  | [w] => w
  | w :: ws => w ++ " " ++ joinWords ws

/-- Embeds `PgeExecutor.run_sas_executable` (base_pge.py lines 265-310)
as its step trace: isolate the SAS runconfig (aborting if that step
raised), log the command line at debug severity, flush the logger, log
the start info entry, start the subprocess via `time_and_execute`, log
the completion entry and the elapsed-time metric. -/
def run_sas_executable_steps (cfg : SasConfig) : List PgeStep :=
  match isolate_sas_runconfig_steps cfg.scratchWriteOk cfg.sas_runconfig_filepath with
  | (steps, false) => steps
  | (steps, true) =>
    steps ++
      [PgeStep.logDebugStep "PgeExecutor" ("SAS EXE command line: " ++ joinWords (sasCommandLine cfg)),
       PgeStep.flushStep,
       PgeStep.logInfoStep "PgeExecutor" "Starting SAS executable",
       PgeStep.subprocessStartStep (sasCommandLine cfg),
       PgeStep.logInfoStep "PgeExecutor" "SAS executable complete",
       PgeStep.logMetricStep "PgeExecutor" "sas.elapsed_seconds"]

/-- The validation-failure message assembled by
`PreProcessorMixin._validate_runconfig` (base_pge.py lines 89-90). -/
def validation_error_msg (filename reason : String) : String :=
  "Validation of RunConfig file " ++ filename ++ " failed, reason(s): \n" ++ reason

/-- Embeds `PreProcessorMixin._validate_runconfig` (base_pge.py lines
73-97) over the logger model: log the validating info entry; if
`runconfig.validate()` raises a YamaleError (`validationError = some
reason`), build the error message, call `logger.critical` with it — the
RuntimeError raised by `critical` propagates — and otherwise fall
through to the explicit `raise RuntimeError(error_msg)` of line 97
(the last match arm, reachable only if `critical` were to return
normally). -/
def validate_runconfig (lg : PgeLogger) (name filename : String)
    (validationError : Option String) (t1 t2 : String) : PgeLogger × Option PgeError :=
  match lg.info name 3 ("Validating RunConfig file " ++ filename) t1 with
  | (lg1, some e) => (lg1, some e)
  | (lg1, none) =>
    match validationError with
    | none => (lg1, none)
    | some reason =>
      match lg1.critical name 4 (validation_error_msg filename reason) t2 with
      | (lg2, some e) => (lg2, some e)
      | (lg2, none) => (lg2, some (PgeError.runtimeError (validation_error_msg filename reason)))

/-! ## Helper lemmas -/

theorem Sink.content_appendLine (s : Sink) (l : String) :
    (s.appendLine l).content = s.content ++ [l] := by
  cases s <;> rfl

theorem Sink.path_appendLine (s : Sink) (l : String) :
    (s.appendLine l).path = s.path := by
  cases s <;> rfl

theorem Sink.content_appendLines (s : Sink) (ls : List String) :
    (s.appendLines ls).content = s.content ++ ls := by
  cases s <;> rfl

theorem Sink.path_appendLines (s : Sink) (ls : List String) :
    (s.appendLines ls).path = s.path := by
  cases s <;> rfl

theorem standardize_Critical : standardize_severity_string "Critical" = "Critical" := by
  decide

theorem standardize_Info : standardize_severity_string "Info" = "Info" := by
  decide

/-- A formatted write against a writable sink, with a severity name that
normalizes to one of the four recognized severities, appends the
formatted entry and increments the matching counter. -/
theorem write_ok_eq (lg : PgeLogger) (sev module : String) (code : Nat) (desc time : String)
    (hw : lg.writable = true) (h : recognizedSeverity sev) :
    lg.write sev module code desc time =
      ({ lg with
          sink := lg.sink.appendLine (entryLine lg.workflow lg.error_code_base time
            (standardize_severity_string sev) module code desc),
          log_count_by_severity :=
            lg.log_count_by_severity.incrementFor (standardize_severity_string sev) }, none) := by
  unfold PgeLogger.write PgeLogger.sinkWrite PgeLogger.increment_log_count_by_severity
  simp only [hw, if_true]
  rw [if_pos h]

/-- A critical write against a writable sink records the formatted entry
and the counter increment, and raises the RuntimeError carrying the
description. -/
theorem critical_ok_eq (lg : PgeLogger) (module : String) (code : Nat) (desc time : String)
    (hw : lg.writable = true) :
    lg.critical module code desc time =
      ({ lg with
          sink := lg.sink.appendLine
            (entryLine lg.workflow lg.error_code_base time "Critical" module code desc),
          log_count_by_severity := lg.log_count_by_severity.incrementFor "Critical" },
        some (PgeError.runtimeError desc)) := by
  unfold PgeLogger.critical
  rw [write_ok_eq lg "Critical" module code desc time hw (by decide), standardize_Critical]

/-- `critical` signals a failure on every input: the result always
carries an exception (RuntimeError, or the fatal I/O error of an
unwritable sink), so code placed directly after a `critical` call never
runs. -/
theorem critical_always_raises (lg : PgeLogger) (module : String) (code : Nat)
    (desc time : String) : ((lg.critical module code desc time).2).isSome = true := by
  unfold PgeLogger.critical
  rcases h : lg.write "Critical" module code desc time with ⟨lg1, e⟩
  cases e <;> simp [h]

/-! ## Character-case helper lemmas (for severity-name normalization) -/

theorem char_toNat_ofNat_of_valid (n : Nat) (h : n.isValidChar) :
    (Char.ofNat n).toNat = n := by
  rw [Char.ofNat, dif_pos h]
  rfl

theorem char_eq_of_toNat_eq {c d : Char} (h : c.toNat = d.toNat) : c = d := by
  have h2 := congrArg Char.ofNat h
  rwa [Char.ofNat_toNat, Char.ofNat_toNat] at h2

theorem isValidChar_of_le_122 {n : Nat} (h : n ≤ 122) : n.isValidChar :=
  Or.inl (by omega)

/-- Characters that agree after `toLower` agree after `toUpper`: the two
ASCII case maps identify exactly the same pairs of characters. -/
theorem toUpper_eq_of_toLower_eq {c d : Char} (h : c.toLower = d.toLower) :
    c.toUpper = d.toUpper := by
  unfold Char.toLower at h
  unfold Char.toUpper
  by_cases hc : c.toNat ≥ 65 ∧ c.toNat ≤ 90 <;> by_cases hd : d.toNat ≥ 65 ∧ d.toNat ≤ 90
  · rw [if_pos hc, if_pos hd] at h
    have h2 := congrArg Char.toNat h
    rw [char_toNat_ofNat_of_valid _ (isValidChar_of_le_122 (by omega)),
        char_toNat_ofNat_of_valid _ (isValidChar_of_le_122 (by omega))] at h2
    rw [char_eq_of_toNat_eq (show c.toNat = d.toNat by omega)]
  · rw [if_pos hc, if_neg hd] at h
    have hdn : d.toNat = c.toNat + 32 := by
      rw [← h, char_toNat_ofNat_of_valid _ (isValidChar_of_le_122 (by omega))]
    rw [if_neg (show ¬(c.toNat ≥ 97 ∧ c.toNat ≤ 122) by omega),
        if_pos (show d.toNat ≥ 97 ∧ d.toNat ≤ 122 by omega), hdn,
        show c.toNat + 32 - 32 = c.toNat by omega, Char.ofNat_toNat]
  · rw [if_neg hc, if_pos hd] at h
    have hcn : c.toNat = d.toNat + 32 := by
      rw [h, char_toNat_ofNat_of_valid _ (isValidChar_of_le_122 (by omega))]
    rw [if_pos (show c.toNat ≥ 97 ∧ c.toNat ≤ 122 by omega),
        if_neg (show ¬(d.toNat ≥ 97 ∧ d.toNat ≤ 122) by omega), hcn,
        show d.toNat + 32 - 32 = d.toNat by omega, Char.ofNat_toNat]
  · rw [if_neg hc, if_neg hd] at h
    rw [h]

/-- A sequence of recognized-severity writes against a writable sink
raises nothing, appends exactly the formatted entries in order, and
leaves the configuration, filename and sink path unchanged. -/
theorem writeSeq_ok (es : List EntryArgs) : ∀ lg : PgeLogger, lg.writable = true →
    (∀ e ∈ es, recognizedSeverity e.severity) →
    (lg.writeSeq es).2 = none ∧
    (lg.writeSeq es).1.sink.content =
      lg.sink.content ++ es.map (entryLineOf lg.workflow lg.error_code_base) ∧
    (lg.writeSeq es).1.workflow = lg.workflow ∧
    (lg.writeSeq es).1.error_code_base = lg.error_code_base ∧
    (lg.writeSeq es).1.writable = true ∧
    (lg.writeSeq es).1.log_filename = lg.log_filename ∧
    (lg.writeSeq es).1.sink.path = lg.sink.path := by
  induction es with
  | nil =>
    intro lg hw _
    exact ⟨rfl, by simp [PgeLogger.writeSeq], rfl, rfl, hw, rfl, rfl⟩
  | cons e rest ih =>
    intro lg hw hr
    have he : recognizedSeverity e.severity := hr e (by simp)
    have hrest : ∀ x ∈ rest, recognizedSeverity x.severity := fun x hx => hr x (by simp [hx])
    unfold PgeLogger.writeSeq
    rw [write_ok_eq lg e.severity e.module e.code e.description e.time hw he]
    obtain ⟨i1, i2, i3, i4, i5, i6, i7⟩ :=
      ih { lg with
            sink := lg.sink.appendLine (entryLine lg.workflow lg.error_code_base e.time
              (standardize_severity_string e.severity) e.module e.code e.description),
            log_count_by_severity :=
              lg.log_count_by_severity.incrementFor (standardize_severity_string e.severity) }
        hw hrest
    refine ⟨i1, ?_, i3, i4, i5, i6, ?_⟩
    · rw [i2]
      simp only [Sink.content_appendLine, entryLineOf, List.map_cons]
      rw [List.append_assoc, List.singleton_append]
    · rw [i7, Sink.path_appendLine]

/-- `move` preserves the accumulated content and configuration, makes
the sink file-backed at the new path, and records the new filename. -/
theorem move_content (lg : PgeLogger) (p : String) :
    (lg.move p).sink.content = lg.sink.content ∧
    (lg.move p).sink.path = some p ∧
    (lg.move p).log_filename = p ∧
    (lg.move p).writable = lg.writable ∧
    (lg.move p).workflow = lg.workflow ∧
    (lg.move p).error_code_base = lg.error_code_base := by
  unfold PgeLogger.move
  cases hs : lg.sink <;> simp [hs, Sink.content, Sink.path]

/-! ## Claim theorems -/

/-- Claim C4: for every integer error code c with 0 <= c <= 3999,
`get_severity_from_error_code` is a pure function of the range
containing c (it takes no other input, so it is independent of any
configured error_code_base): [0,999] yields Info, [1000,1999] yields
Debug, [2000,2999] yields Warning, [3000,3999] yields Critical. -/
theorem get_severity_from_error_code_ranges (c : Nat) :
    (c ≤ 999 → get_severity_from_error_code c = "Info") ∧
    (1000 ≤ c → c ≤ 1999 → get_severity_from_error_code c = "Debug") ∧
    (2000 ≤ c → c ≤ 2999 → get_severity_from_error_code c = "Warning") ∧
    (3000 ≤ c → c ≤ 3999 → get_severity_from_error_code c = "Critical") := by
  unfold get_severity_from_error_code
  refine ⟨fun h => ?_, fun h1 h2 => ?_, fun h1 h2 => ?_, fun h1 h2 => ?_⟩ <;>
    split_ifs <;> first | rfl | omega

/-- Witness for C4: the range classification evaluated inside each of
the four ranges. -/
theorem get_severity_from_error_code_ranges_witness :
    get_severity_from_error_code 500 = "Info" ∧
    get_severity_from_error_code 1500 = "Debug" ∧
    get_severity_from_error_code 2500 = "Warning" ∧
    get_severity_from_error_code 3500 = "Critical" :=
  ⟨(get_severity_from_error_code_ranges 500).1 (by decide),
   (get_severity_from_error_code_ranges 1500).2.1 (by decide) (by decide),
   (get_severity_from_error_code_ranges 2500).2.2.1 (by decide) (by decide),
   (get_severity_from_error_code_ranges 3500).2.2.2 (by decide) (by decide)⟩

/-- Claim C5: `resync_log_count_by_severity` is idempotent — running it
twice consecutively with no intervening writes yields the same four
severity counters as running it once, on every logger state. -/
theorem resync_log_count_by_severity_idempotent (lg : PgeLogger) :
    ((lg.resync_log_count_by_severity).resync_log_count_by_severity).log_count_by_severity =
      (lg.resync_log_count_by_severity).log_count_by_severity := rfl

/-- Claim C7: the low-level write primitive appends exactly one line of
the documented comma-separated form, renders the error code by its
enumerated symbolic name — so two codes with the same name produce the
same output, whatever their numeric values — and modifies no severity
counter (a raw sink write leaves the logger counters untouched). -/
theorem write_primitive_single_line (stream : List String)
    (time severity workflow module : String) (ec : ErrorCode) (location description : String) :
    write stream time severity workflow module ec location description =
      stream ++ [time ++ ", " ++ severity ++ ", " ++ workflow ++ ", " ++ module ++
        ", ErrorCode." ++ ec.name ++ ", " ++ location ++ ", \"" ++ description ++ "\""] ∧
    (∀ ec2 : ErrorCode, ec2.name = ec.name →
      write stream time severity workflow module ec2 location description =
        write stream time severity workflow module ec location description) ∧
    (∀ (lg : PgeLogger) (line : String),
      (lg.sinkWrite line).1.log_count_by_severity = lg.log_count_by_severity) := by
  refine ⟨rfl, fun ec2 h => ?_, fun lg line => ?_⟩
  · unfold write formatLine
    rw [h]
  · unfold PgeLogger.sinkWrite
    split_ifs <;> rfl

/-- Witness for C7: two distinct numeric codes sharing the symbolic name
OVERALL_SUCCESS produce the identical log line. -/
theorem write_primitive_single_line_witness :
    write ["previous line"] "2021-01-01T00:00:00Z" "Info" "wf" "mod"
        { code := 0, name := "OVERALL_SUCCESS" } "loc" "desc" =
      write ["previous line"] "2021-01-01T00:00:00Z" "Info" "wf" "mod"
        { code := 99, name := "OVERALL_SUCCESS" } "loc" "desc" :=
  (write_primitive_single_line ["previous line"] "2021-01-01T00:00:00Z" "Info" "wf" "mod"
    { code := 99, name := "OVERALL_SUCCESS" } "loc" "desc").2.1
    { code := 0, name := "OVERALL_SUCCESS" } rfl

/-- Claim C1: a `critical(module, code, description)` call on a logger
whose sink is writable records the formatted critical entry — which
contains the description — in the sink content of the state carried
alongside the fatal signal, and the signal is the RuntimeError carrying
the description: in this state-passing model the raise never precedes
the write, since the state paired with the propagating error already
holds the entry. -/
theorem critical_records_before_raise (lg : PgeLogger) (module : String) (code : Nat)
    (description time : String) (hw : lg.writable = true) :
    (lg.critical module code description time).2 =
      some (PgeError.runtimeError description) ∧
    (lg.critical module code description time).1.sink.content =
      lg.sink.content ++
        [entryLine lg.workflow lg.error_code_base time "Critical" module code description] ∧
    description.data <:+:
      (entryLine lg.workflow lg.error_code_base time "Critical" module code description).data := by
  rw [critical_ok_eq lg module code description time hw]
  refine ⟨rfl, Sink.content_appendLine _ _, ?_⟩
  unfold entryLine formatLine
  exact ⟨(time ++ ", " ++ "Critical" ++ ", " ++ lg.workflow ++ ", " ++ module ++
    ", ErrorCode." ++ errorCodeName (lg.error_code_base + code) ++ ", " ++ "logger.py" ++
    ", \"").data, "\"".data, by simp⟩

/-- Witness for C1: a concrete critical write on a fresh writable
buffer-backed logger. -/
theorem critical_records_before_raise_witness :
    ({ workflow := "pge_init::logger.py", error_code_base := 900000,
       log_filename := "pge_20211001T120000.log",
       log_count_by_severity := { debug := 0, info := 0, warning := 0, critical := 0 },
       sink := Sink.buffer [], writable := true } : PgeLogger).writable = true ∧
    (({ workflow := "pge_init::logger.py", error_code_base := 900000,
        log_filename := "pge_20211001T120000.log",
        log_count_by_severity := { debug := 0, info := 0, warning := 0, critical := 0 },
        sink := Sink.buffer [], writable := true } : PgeLogger).critical
          "opera_pge" 8 "Test critical() method." "2021-10-01T12:00:00Z").2 =
      some (PgeError.runtimeError "Test critical() method.") :=
  ⟨rfl,
   (critical_records_before_raise
     { workflow := "pge_init::logger.py", error_code_base := 900000,
       log_filename := "pge_20211001T120000.log",
       log_count_by_severity := { debug := 0, info := 0, warning := 0, critical := 0 },
       sink := Sink.buffer [], writable := true }
     "opera_pge" 8 "Test critical() method." "2021-10-01T12:00:00Z" rfl).1⟩

/-- Claim C2: writing N entries, calling `move(new_path)`, then writing
M more entries yields a sink at new_path whose content is the original
content followed by all N+M formatted entries in write order — none
duplicated or lost — with the logger's recorded filename equal to
new_path; this covers the buffer-backed case, where the move flushes the
buffered content to the new path and completes the buffer-to-file
transition (the final sink is file-backed at new_path). -/
theorem move_durability (lg : PgeLogger) (es1 es2 : List EntryArgs) (p : String)
    (hw : lg.writable = true)
    (h1 : ∀ e ∈ es1, recognizedSeverity e.severity)
    (h2 : ∀ e ∈ es2, recognizedSeverity e.severity) :
    ((((lg.writeSeq es1).1.move p).writeSeq es2).1).sink.content =
      lg.sink.content ++ es1.map (entryLineOf lg.workflow lg.error_code_base)
        ++ es2.map (entryLineOf lg.workflow lg.error_code_base) ∧
    ((((lg.writeSeq es1).1.move p).writeSeq es2).1).sink.path = some p ∧
    ((((lg.writeSeq es1).1.move p).writeSeq es2).1).log_filename = p ∧
    (lg.writeSeq es1).2 = none ∧
    (((lg.writeSeq es1).1.move p).writeSeq es2).2 = none := by
  obtain ⟨a1, a2, a3, a4, a5, a6, a7⟩ := writeSeq_ok es1 lg hw h1
  obtain ⟨m1, m2, m3, m4, m5, m6⟩ := move_content (lg.writeSeq es1).1 p
  obtain ⟨b1, b2, b3, b4, b5, b6, b7⟩ :=
    writeSeq_ok es2 ((lg.writeSeq es1).1.move p) (by rw [m4, a5]) h2
  refine ⟨?_, ?_, ?_, a1, b1⟩
  · rw [b2, m1, a2, m5, a3, m6, a4, List.append_assoc]
  · rw [b7, m2]
  · rw [b6, m3]

/-- Witness for C2: one entry, a move to test_move.log, then one more
entry, starting from a fresh buffer-backed logger. -/
theorem move_durability_witness :
    (((({ workflow := "pge_init::logger.py", error_code_base := 900000,
           log_filename := "pge_20211001T120000.log",
           log_count_by_severity := { debug := 0, info := 0, warning := 0, critical := 0 },
           sink := Sink.buffer [], writable := true } : PgeLogger).writeSeq
        [{ time := "T1", severity := "info", module := "opera_pge", code := 0,
           description := "first entry" }]).1.move "test_move.log").writeSeq
        [{ time := "T2", severity := "Warning", module := "opera_pge", code := 2,
           description := "second entry" }]).1.sink.path = some "test_move.log" :=
  (move_durability
    { workflow := "pge_init::logger.py", error_code_base := 900000,
      log_filename := "pge_20211001T120000.log",
      log_count_by_severity := { debug := 0, info := 0, warning := 0, critical := 0 },
      sink := Sink.buffer [], writable := true }
    [{ time := "T1", severity := "info", module := "opera_pge", code := 0,
       description := "first entry" }]
    [{ time := "T2", severity := "Warning", module := "opera_pge", code := 2,
       description := "second entry" }]
    "test_move.log" rfl (by decide) (by decide)).2.1

/-- Claim C3: `append(external_path)` appends the external file content
verbatim to the current sink and leaves all four severity counters
unchanged; after a subsequent `resync_log_count_by_severity()`, each
counter equals the true per-line tally of its severity token across the
whole sink content, including the appended lines. -/
theorem append_then_resync (lg : PgeLogger) (externalLines : List String)
    (hw : lg.writable = true) :
    (lg.append externalLines).2 = none ∧
    (lg.append externalLines).1.log_count_by_severity = lg.log_count_by_severity ∧
    (lg.append externalLines).1.sink.content = lg.sink.content ++ externalLines ∧
    ((lg.append externalLines).1.resync_log_count_by_severity).log_count_by_severity.debug =
      countSeverity (lg.sink.content ++ externalLines) "Debug" ∧
    ((lg.append externalLines).1.resync_log_count_by_severity).log_count_by_severity.info =
      countSeverity (lg.sink.content ++ externalLines) "Info" ∧
    ((lg.append externalLines).1.resync_log_count_by_severity).log_count_by_severity.warning =
      countSeverity (lg.sink.content ++ externalLines) "Warning" ∧
    ((lg.append externalLines).1.resync_log_count_by_severity).log_count_by_severity.critical =
      countSeverity (lg.sink.content ++ externalLines) "Critical" := by
  unfold PgeLogger.append PgeLogger.resync_log_count_by_severity tallyBySeverity
  simp [hw, Sink.content_appendLines]

/-- Witness for C3: appending two severity-tagged foreign lines to a
logger holding one Info entry; the resynced counters follow the line
tally. -/
theorem append_then_resync_witness :
    (({ workflow := "test_pge_args", error_code_base := 17171717,
        log_filename := "test_args.log",
        log_count_by_severity := { debug := 0, info := 1, warning := 0, critical := 0 },
        sink := Sink.file "test_args.log" ["t, Info, wf, m, ErrorCode.OVERALL_SUCCESS, loc, \"x\""],
        writable := true } : PgeLogger).append
      ["foreign Warning line", "foreign Info line"]).1.sink.content =
      ["t, Info, wf, m, ErrorCode.OVERALL_SUCCESS, loc, \"x\"",
       "foreign Warning line", "foreign Info line"] :=
  (append_then_resync
    { workflow := "test_pge_args", error_code_base := 17171717,
      log_filename := "test_args.log",
      log_count_by_severity := { debug := 0, info := 1, warning := 0, critical := 0 },
      sink := Sink.file "test_args.log" ["t, Info, wf, m, ErrorCode.OVERALL_SUCCESS, loc, \"x\""],
      writable := true }
    ["foreign Warning line", "foreign Info line"] rfl).2.2.1

/-- Claim C6: for a severity name that does not normalize to one of
Debug/Info/Warning/Critical, `increment_log_count_by_severity` and
`get_log_count_by_severity` raise no exception, leave all four real
severity counters unchanged, and each records a Warning entry in the log
naming the unrecognized severity (and the getter yields no count). -/
theorem unrecognized_severity_no_raise (lg : PgeLogger) (name time1 time2 : String)
    (hw : lg.writable = true) (h : ¬ recognizedSeverity name) :
    (lg.increment_log_count_by_severity name time1).2 = none ∧
    (lg.increment_log_count_by_severity name time1).1.log_count_by_severity =
      lg.log_count_by_severity ∧
    couldNotIncrementLine lg (standardize_severity_string name) time1 ∈
      (lg.increment_log_count_by_severity name time1).1.sink.content ∧
    (lg.get_log_count_by_severity name time2).2.1 = none ∧
    (lg.get_log_count_by_severity name time2).2.2 = none ∧
    (lg.get_log_count_by_severity name time2).1.log_count_by_severity =
      lg.log_count_by_severity ∧
    noMessagesLine lg (standardize_severity_string name) time2 ∈
      (lg.get_log_count_by_severity name time2).1.sink.content := by
  have hd : ¬ standardize_severity_string name = "Debug" := fun he => h (Or.inl he)
  have hi : ¬ standardize_severity_string name = "Info" := fun he => h (Or.inr (Or.inl he))
  have hwa : ¬ standardize_severity_string name = "Warning" :=
    fun he => h (Or.inr (Or.inr (Or.inl he)))
  have hc : ¬ standardize_severity_string name = "Critical" :=
    fun he => h (Or.inr (Or.inr (Or.inr he)))
  unfold PgeLogger.increment_log_count_by_severity PgeLogger.get_log_count_by_severity
    PgeLogger.sinkWrite
  simp only [hd, hi, hwa, hc, hw, if_true, if_false, if_neg h, if_neg hd, if_neg hi,
    if_neg hwa, if_neg hc]
  simp [Sink.content_appendLine]

/-- Witness for C6: the scenario of the unit tests — severity name
BROKEN (normalizing to Broken) on a writable logger. -/
theorem unrecognized_severity_no_raise_witness :
    ¬ recognizedSeverity "BROKEN" ∧
    (({ workflow := "test_pge_args", error_code_base := 17171717,
        log_filename := "test_args.log",
        log_count_by_severity := { debug := 0, info := 1, warning := 0, critical := 0 },
        sink := Sink.file "test_args.log" [], writable := true } : PgeLogger).increment_log_count_by_severity
      "BROKEN" "T1").1.log_count_by_severity =
      { debug := 0, info := 1, warning := 0, critical := 0 } :=
  ⟨by decide,
   (unrecognized_severity_no_raise
     { workflow := "test_pge_args", error_code_base := 17171717,
       log_filename := "test_args.log",
       log_count_by_severity := { debug := 0, info := 1, warning := 0, critical := 0 },
       sink := Sink.file "test_args.log" [], writable := true }
     "BROKEN" "T1" "T2" rfl (by decide)).2.1⟩

/-- Claim C8: severity name strings that differ only in letter case
(equal character lists after lowercasing) are mapped by
`standardize_severity_string` to the identical canonical form — first
character capitalized, all remaining characters lowercased. -/
theorem standardize_severity_string_case_insensitive (s t : String)
    (h : s.data.map Char.toLower = t.data.map Char.toLower) :
    standardize_severity_string s = standardize_severity_string t := by
  unfold standardize_severity_string
  cases hs : s.data with
  | nil =>
    cases ht : t.data with
    | nil => rfl
    | cons b bs => rw [hs, ht] at h; simp at h
  | cons a as =>
    cases ht : t.data with
    | nil => rw [hs, ht] at h; simp at h
    | cons b bs =>
      rw [hs, ht] at h
      simp only [List.map_cons, List.cons.injEq] at h
      show String.mk (a.toUpper :: as.map Char.toLower) =
        String.mk (b.toUpper :: bs.map Char.toLower)
      rw [toUpper_eq_of_toLower_eq h.1, h.2]

/-- Witness for C8: the casings InFo and iNfO of the Info severity name
normalize identically. -/
theorem standardize_severity_string_case_insensitive_witness :
    standardize_severity_string "InFo" = standardize_severity_string "iNfO" :=
  standardize_severity_string_case_insensitive "InFo" "iNfO" (by decide)

/-- Claim C9: in every execution of `PgeExecutor.run_sas_executable`,
the logger flush strictly precedes the SAS subprocess start in the
operation's step sequence: wherever a subprocess-start step occurs in
the trace, a flush step occurs at a strictly smaller index. -/
theorem run_sas_flush_before_subprocess (cfg : SasConfig) (j : Nat) (cmd : List String)
    (hj : (run_sas_executable_steps cfg)[j]? = some (PgeStep.subprocessStartStep cmd)) :
    ∃ i, i < j ∧ (run_sas_executable_steps cfg)[i]? = some PgeStep.flushStep := by
  rcases hw : cfg.scratchWriteOk
  · simp only [run_sas_executable_steps, isolate_sas_runconfig_steps, hw,
      Bool.false_eq_true, if_false] at hj
    rcases j with _ | j <;> simp at hj
  · simp only [run_sas_executable_steps, isolate_sas_runconfig_steps, hw, if_true,
      List.cons_append, List.nil_append] at hj
    refine ⟨2, ?_, ?_⟩
    · rcases j with _ | _ | _ | _ | _ | j <;> simp_all
    · simp only [run_sas_executable_steps, isolate_sas_runconfig_steps, hw, if_true,
        List.cons_append, List.nil_append]
      rfl

/-- Witness for C9: a concrete configuration whose trace has the
subprocess start at index 4 and the flush at index 2. -/
theorem run_sas_flush_before_subprocess_witness :
    ∃ i, i < 4 ∧
      (run_sas_executable_steps
        { sas_program_path := "opera.sas", sas_program_path_exists := true,
          sas_program_options := [], sas_runconfig_filepath := "rc_sas.yaml",
          scratchWriteOk := true })[i]? = some PgeStep.flushStep :=
  run_sas_flush_before_subprocess
    { sas_program_path := "opera.sas", sas_program_path_exists := true,
      sas_program_options := [], sas_runconfig_filepath := "rc_sas.yaml",
      scratchWriteOk := true }
    4
    (sasCommandLine
      { sas_program_path := "opera.sas", sas_program_path_exists := true,
        sas_program_options := [], sas_runconfig_filepath := "rc_sas.yaml",
        scratchWriteOk := true })
    (by rfl)

/-- Claim C10: in `_validate_runconfig`, when `runconfig.validate()`
raises a YamaleError, the `logger.critical` call itself raises after
recording the critical entry — `critical` signals on every input (first
conjunct), so the explicit `raise RuntimeError(error_msg)` statement
encoded as the final match arm of `validate_runconfig` is unreachable —
and the error that propagates to the caller carries the same
validation-failure message that was written to the log (second and third
conjuncts). -/
theorem validate_runconfig_explicit_raise_unreachable (lg : PgeLogger)
    (name filename reason t1 t2 : String) (hw : lg.writable = true) :
    (∀ (lgx : PgeLogger) (m : String) (c : Nat) (d t : String),
        ((lgx.critical m c d t).2).isSome = true) ∧
    (validate_runconfig lg name filename (some reason) t1 t2).2 =
      some (PgeError.runtimeError (validation_error_msg filename reason)) ∧
    entryLine lg.workflow lg.error_code_base t2 "Critical" name 4
        (validation_error_msg filename reason) ∈
      (validate_runconfig lg name filename (some reason) t1 t2).1.sink.content := by
  refine ⟨fun lgx m c d t => critical_always_raises lgx m c d t, ?_⟩
  unfold validate_runconfig PgeLogger.info
  rw [write_ok_eq lg "Info" name 3 ("Validating RunConfig file " ++ filename) t1 hw (by decide)]
  dsimp only
  rw [critical_ok_eq _ name 4 (validation_error_msg filename reason) t2 (by exact hw)]
  dsimp only
  exact ⟨rfl, by simp [Sink.content_appendLine]⟩

/-- Witness for C10: a concrete failed validation on a fresh writable
logger. -/
theorem validate_runconfig_explicit_raise_unreachable_witness :
    (validate_runconfig
      { workflow := "pge_init::logger.py", error_code_base := 900000,
        log_filename := "pge_20211001T120000.log",
        log_count_by_severity := { debug := 0, info := 0, warning := 0, critical := 0 },
        sink := Sink.buffer [], writable := true }
      "PgeExecutor" "test_base_pge_config.yaml" (some "schema mismatch") "T1" "T2").2 =
      some (PgeError.runtimeError
        (validation_error_msg "test_base_pge_config.yaml" "schema mismatch")) :=
  (validate_runconfig_explicit_raise_unreachable
    { workflow := "pge_init::logger.py", error_code_base := 900000,
      log_filename := "pge_20211001T120000.log",
      log_count_by_severity := { debug := 0, info := 0, warning := 0, critical := 0 },
      sink := Sink.buffer [], writable := true }
    "PgeExecutor" "test_base_pge_config.yaml" "schema mismatch" "T1" "T2" rfl).2.1
